import Mathlib

/-!
Verification of the `vietnam-stock-analysis` analytics core against its
specification.  The Python source is shallowly embedded:

* `stock_reader._get_date_string` — the date-range resolver — becomes
  `get_date_string`, with the wall clock (`datetime.now(pytz.utc)`) passed in
  explicitly as a day number and `strftime("%d/%m/%Y")` modelled by
  `strftimeDMY`.  Python truthiness of the optional arguments is modelled
  exactly (`0`, `None` and `""` are falsy).
* `StockAnalyzer` (stock_analyzer.py) — each metric is embedded over the
  column(s) it reads: `close_pct_change`, `cummulative_returns` and
  `daily_std` over the list of Close prices, the pivot-point family over a
  list of (High, Low, Close) rows.  Prices are modelled as rationals; a
  pandas NaN is `Option.none`.
* `AssetGroupAnalyzer` — `groupby` over the `name` column plus the
  `hasattr`/`getattr`-on-the-class dispatch of `analyze`, with the class
  attributes of `StockAnalyzer` enumerated together with their Python kind
  (plain method / property / staticmethod).
* `technical_indicators.py` — `MA.result`, `EMA.result`, `MACD.result`
  become `MA_result`, `EMA_result`, `MACD_result` over the Close column.

Raised Python exceptions become `Except.error` carrying the message.
-/

namespace VietnamStock

/-! ## Date-range resolver (stock_reader._get_date_string) -/

/-- Civil (proleptic Gregorian) date `(year, month, day)` of the day number
`z` (days since 1970-01-01).  This models the calendar underlying
`datetime.strftime`; it is the standard days-to-civil conversion, valid for
every `z` because Lean's integer `/` is floor division. -/
def civilFromDays (z : ℤ) : ℤ × ℤ × ℤ :=
  let zd := z + 719468
  let era := zd / 146097
  let doe := zd - era * 146097
  let yoe := (doe - doe / 1460 + doe / 36524 - doe / 146096) / 365
  let y := yoe + era * 400
  let doy := doe - (365 * yoe + yoe / 4 - yoe / 100)
  let mp := (5 * doy + 2) / 153
  let d := doy - (153 * mp + 2) / 5 + 1
  let m := if mp < 10 then mp + 3 else mp - 9
  (if m ≤ 2 then y + 1 else y, m, d)

/-- Two-digit zero padding, as `strftime` does for `%d` and `%m`. -/
def pad2 (n : ℤ) : String :=
  if n < 10 then "0" ++ toString n else toString n

/-- `strftime("%d/%m/%Y")` of the day number `z`: day and month zero-padded
to two digits, separated by slashes, then the full year. -/
def strftimeDMY (z : ℤ) : String :=
  let c := civilFromDays z
  pad2 c.2.2 ++ "/" ++ pad2 c.2.1 ++ "/" ++ toString c.1

/-- Python truthiness of an optional integer argument: `None` and `0` are
falsy. -/
def truthyInt : Option ℤ → Bool
  | none => false
  | some d => d != 0

/-- Python truthiness of an optional string argument: `None` and `""` are
falsy. -/
def truthyStr : Option String → Bool
  | none => false
  | some s => s != ""

/-- Embedding of `stock_reader._get_date_string`.  `now` is the day number
of `datetime.now(pytz.utc)`; a raised `ValueError` becomes `Except.error`.
The source first defaults `days_from_now` to 30 when all three arguments
are falsy, then branches on the truthiness of `days_from_now`, then on
`from_date`/`to_date`. -/
def get_date_string (now : ℤ) (days_from_now : Option ℤ)
    (from_date to_date : Option String) :
    Except String (Option String × Option String) :=
  let dfn := if !(truthyInt days_from_now || truthyStr from_date || truthyStr to_date)
    then some (30 : ℤ) else days_from_now
  if truthyInt dfn then
    Except.ok (some (strftimeDMY (now - dfn.getD 0)), some (strftimeDMY now))
  else if !truthyStr from_date && truthyStr to_date then
    Except.error "You must provided from_date"
  else if truthyStr from_date && !truthyStr to_date then
    Except.ok (from_date, some (strftimeDMY now))
  else
    Except.ok (from_date, to_date)

end VietnamStock

/-! Sanity examples for the calendar embedding (1970-01-01 is day 0;
2020-09-01 is day 18506). -/

example : VietnamStock.strftimeDMY 0 = "01/01/1970" := by decide

example : VietnamStock.strftimeDMY 18506 = "01/09/2020" := by decide

example : VietnamStock.strftimeDMY 18476 = "02/08/2020" := by decide

example : VietnamStock.strftimeDMY 18500 = "26/08/2020" := by decide

namespace VietnamStock

/-- C1 (counterexample).  The claim quantifies over every integer
`days_from_now = d`, but the source tests `if days_from_now:`, and Python
treats `0` as falsy.  Supplying `d = 0` with no other arguments therefore
falls into the all-absent default branch (`days_from_now = 30`): with the
clock at day 18506 (2020-09-01) the resolver returns the 30-day window
`("02/08/2020", "01/09/2020")`, not the claimed
`(now - 0 days, now) = ("01/09/2020", "01/09/2020")`. -/
theorem get_date_string_zero_days_counterexample :
    get_date_string 18506 (some 0) none none =
      Except.ok (some "02/08/2020", some "01/09/2020") ∧
    get_date_string 18506 (some 0) none none ≠
      Except.ok (some (strftimeDMY (18506 - 0)), some (strftimeDMY 18506)) := by
  have h0 : get_date_string 18506 (some 0) none none =
      Except.ok (some "02/08/2020", some "01/09/2020") := rfl
  have hs : strftimeDMY (18506 - 0) = "01/09/2020" := by decide
  have hn : strftimeDMY (18506 : ℤ) = "01/09/2020" := by decide
  refine ⟨h0, ?_⟩
  intro h
  rw [h0, hs, hn] at h
  simp at h

/-- C1 (amended).  For every *nonzero* integer `d` supplied as
`days_from_now`, the resolver returns `(now - d days, now)`, both rendered
by `strftime("%d/%m/%Y")`, overriding whatever `from_date`/`to_date` were
also supplied (`now` is the UTC clock value passed in). -/
theorem get_date_string_days_from_now_overrides
    (now d : ℤ) (from_date to_date : Option String) (hd : d ≠ 0) :
    get_date_string now (some d) from_date to_date =
      Except.ok (some (strftimeDMY (now - d)), some (strftimeDMY now)) := by
  have ht : truthyInt (some d) = true := by
    simp [truthyInt, hd]
  unfold get_date_string
  by_cases hf : truthyStr from_date = true <;>
    by_cases htd : truthyStr to_date = true <;>
      simp [ht, hf, htd, Option.getD]

/-- C1 witness: `d = 6` with both absolute dates also supplied, clock at
2020-09-01 (day 18506); the relative window wins and ends 6 days earlier at
26/08/2020. -/
theorem get_date_string_days_from_now_overrides_witness :
    (6 : ℤ) ≠ 0 ∧
    get_date_string 18506 (some 6) (some "05/05/2005") (some "06/06/2006") =
      Except.ok (some (strftimeDMY (18506 - 6)), some (strftimeDMY 18506)) :=
  ⟨by decide,
   get_date_string_days_from_now_overrides 18506 6
     (some "05/05/2005") (some "06/06/2006") (by decide)⟩

/-- C6.  When `to_date` is supplied (a non-empty string, hence truthy) but
neither `from_date` nor `days_from_now` is supplied, the resolver raises
`ValueError("You must provided from_date")`. -/
theorem get_date_string_to_without_from_fails
    (now : ℤ) (t : String) (ht : t ≠ "") :
    get_date_string now none none (some t) =
      Except.error "You must provided from_date" := by
  unfold get_date_string
  simp [truthyInt, truthyStr, ht]

/-- C6 witness: the spec's concrete instance
`resolve(from_date=None, to_date="01/09/2020")`. -/
theorem get_date_string_to_without_from_fails_witness :
    ("01/09/2020" : String) ≠ "" ∧
    get_date_string 18506 none none (some "01/09/2020") =
      Except.error "You must provided from_date" :=
  ⟨by decide,
   get_date_string_to_without_from_fails 18506 "01/09/2020" (by decide)⟩

/-! ## StockAnalyzer (stock_analyzer.py)

Prices are rationals; a pandas NaN is `Option.none`.  Metrics reading only
the Close column are embedded over the list of Close prices (in date
order); the pivot-point family reads the last row's High/Low/Close. -/

/-- One row of the price table, restricted to the columns the pivot-point
family reads. -/
structure StockRow where
  high : ℚ
  low : ℚ
  close : ℚ
  deriving DecidableEq

/-- `close.pct_change()`: first value NaN, then day-over-day relative
change `c[i] / c[i-1] - 1`. -/
def close_pct_change (closes : List ℚ) : List (Option ℚ) :=
  match closes with
  | [] => []
  | c :: rest => none :: pctFrom c rest
where
  /-- Tail of `pct_change` given the previous close. -/
  pctFrom : ℚ → List ℚ → List (Option ℚ)
    | _, [] => []
    | prev, x :: xs => some (x / prev - 1) :: pctFrom x xs

/-- `Series.cumprod()` with its default `skipna=True`: NaN entries stay NaN
in the output and the running product (seeded by `acc`) skips them. -/
def cumprodSkipna (acc : ℚ) : List (Option ℚ) → List (Option ℚ)
  | [] => []
  | none :: xs => none :: cumprodSkipna acc xs
  | some x :: xs => some (acc * x) :: cumprodSkipna (acc * x) xs

/-- `StockAnalyzer.cummulative_returns`:
`np.add(self.close_pct_change, 1).cumprod()` (NaN + 1 = NaN). -/
def cummulative_returns (closes : List ℚ) : List (Option ℚ) :=
  cumprodSkipna 1 ((close_pct_change closes).map (fun o => o.map (· + 1)))

/-- Python list slicing `l[k:]` for an integer `k`: a non-negative start
drops `k` elements (clamped), a negative start keeps the last `-k`
elements (clamped). -/
def pySliceFrom (k : ℤ) (l : List (Option ℚ)) : List (Option ℚ) :=
  if k < 0 then l.drop (l.length - (-k).toNat) else l.drop k.toNat

/-- `StockAnalyzer.daily_std`:
`self.close_pct_change[min(periods, self._max_periods) * -1 :].std()`.
`_max_periods` is the row count.  pandas' `.std()` itself (sample standard
deviation, NaN-skipping) is taken as a parameter `std`: the claim about
`daily_std` concerns only which observations reach it.  `sampleVarQ`
(its square, exactly computable over ℚ) instantiates it in concrete
evaluations. -/
def daily_std (std : List (Option ℚ) → Option ℚ) (periods : ℤ)
    (closes : List ℚ) : Option ℚ :=
  std (pySliceFrom (min periods (closes.length : ℤ) * (-1)) (close_pct_change closes))

/-- The square of pandas' `Series.std()` (sample variance, `ddof=1`,
NaN-skipping): NaN when fewer than two non-NaN observations remain.  Since
`std = sqrt ∘ var` and `sqrt` is injective on non-negatives, two `.std()`
results are equal (or both NaN) exactly when the `sampleVarQ` results
are. -/
def sampleVarQ (l : List (Option ℚ)) : Option ℚ :=
  let v := l.filterMap id
  if v.length < 2 then none
  else
    let mean := v.sum / (v.length : ℚ)
    some (((v.map (fun x => (x - mean) ^ 2)).sum) / ((v.length : ℚ) - 1))

/-- Modelled from the spec's words (refinement comparison for C8):
"standard deviation of `closePercentChange` restricted to the last
`min(periods, rowCount)` observations" — the last `k` entries of the
series handed to `.std()`. -/
def lastObservations (k : ℕ) (l : List (Option ℚ)) : List (Option ℚ) :=
  l.drop (l.length - k)

/-- `StockAnalyzer.last_close`: the Close of the most recent day.  The
index has unique dates (schema), so `df.last("1D")` is the final row; an
empty table would raise, hence the non-emptiness argument. -/
def last_close (rows : List StockRow) (h : rows ≠ []) : ℚ :=
  (rows.getLast h).close

/-- `StockAnalyzer.last_high`: the High of the most recent day. -/
def last_high (rows : List StockRow) (h : rows ≠ []) : ℚ :=
  (rows.getLast h).high

/-- `StockAnalyzer.last_low`: the Low of the most recent day. -/
def last_low (rows : List StockRow) (h : rows ≠ []) : ℚ :=
  (rows.getLast h).low

/-- `StockAnalyzer.pivot_point = (last_close + last_high + last_low) / 3`. -/
def pivot_point (rows : List StockRow) (h : rows ≠ []) : ℚ :=
  (last_close rows h + last_high rows h + last_low rows h) / 3

/-- `StockAnalyzer.resistance(level)`; an invalid level raises
`ValueError`. -/
def resistance (rows : List StockRow) (h : rows ≠ []) (level : ℤ) :
    Except String ℚ :=
  if level = 1 then
    Except.ok (2 * pivot_point rows h - last_low rows h)
  else if level = 2 then
    Except.ok (pivot_point rows h + (last_high rows h - last_low rows h))
  else if level = 3 then
    Except.ok (last_high rows h + 2 * (pivot_point rows h - last_low rows h))
  else
    Except.error "Not a valid level. Must be 1, 2, or 3"

/-- `StockAnalyzer.support(level)`; an invalid level raises `ValueError`. -/
def support (rows : List StockRow) (h : rows ≠ []) (level : ℤ) :
    Except String ℚ :=
  if level = 1 then
    Except.ok (2 * pivot_point rows h - last_high rows h)
  else if level = 2 then
    Except.ok (pivot_point rows h - (last_high rows h - last_low rows h))
  else if level = 3 then
    Except.ok (last_low rows h - 2 * (last_high rows h - pivot_point rows h))
  else
    Except.error "Not a valid level. Must be 1, 2, or 3"

/-- The spec's one-row example table: High = 12, Low = 8, Close = 10. -/
def sampleRows : List StockRow := [⟨12, 8, 10⟩]

theorem sampleRows_ne_nil : sampleRows ≠ [] := by simp [sampleRows]

/-- C5 (counterexample).  On the 2-row series with Close = [100, 110] the
value of `cummulative_returns` at index position 0 is NaN (`pct_change`
puts NaN first and `cumprod` keeps NaN in place), not the claimed 1.10. -/
theorem cummulative_returns_first_counterexample :
    (cummulative_returns [100, 110]).get? 0 = some none ∧
    (cummulative_returns [100, 110]).get? 0 ≠ some (some (11 / 10 : ℚ)) := by
  have h : cummulative_returns [100, 110] = [none, some (11 / 10 : ℚ)] := by
    norm_num [cummulative_returns, close_pct_change, close_pct_change.pctFrom,
      cumprodSkipna]
  rw [h]
  exact ⟨rfl, by simp⟩

/-- C5 (amended).  The 1.10 value sits at index position 1: position 0 is
NaN because the first percent change is undefined, and the running product
of `(1 + dailyPercentChange)` first becomes defined at position 1, where it
equals `1 · (1 + 0.1) = 1.10`. -/
theorem cummulative_returns_second_is_one_point_one :
    (cummulative_returns [100, 110]).get? 1 = some (some (11 / 10 : ℚ)) := by
  have h : cummulative_returns [100, 110] = [none, some (11 / 10 : ℚ)] := by
    norm_num [cummulative_returns, close_pct_change, close_pct_change.pctFrom,
      cumprodSkipna]
  rw [h]
  rfl

/-- C7.  `resistance(1)` and `support(1)` both succeed on every non-empty
series and their sum is `4 · pivotPoint − lastHigh − lastLow`. -/
theorem resistance_support_pivot_identity
    (rows : List StockRow) (h : rows ≠ []) :
    resistance rows h 1 = Except.ok (2 * pivot_point rows h - last_low rows h) ∧
    support rows h 1 = Except.ok (2 * pivot_point rows h - last_high rows h) ∧
    (2 * pivot_point rows h - last_low rows h) +
        (2 * pivot_point rows h - last_high rows h) =
      4 * pivot_point rows h - last_high rows h - last_low rows h :=
  ⟨rfl, rfl, by ring⟩

/-- C7 witness: on the spec's one-row table (High = 12, Low = 8,
Close = 10) the pivot is 10, R1 = 12, S1 = 8, and the identity holds. -/
theorem resistance_support_pivot_identity_witness :
    pivot_point sampleRows sampleRows_ne_nil = 10 ∧
    resistance sampleRows sampleRows_ne_nil 1 = Except.ok 12 ∧
    support sampleRows sampleRows_ne_nil 1 = Except.ok 8 ∧
    (2 * pivot_point sampleRows sampleRows_ne_nil - last_low sampleRows sampleRows_ne_nil) +
        (2 * pivot_point sampleRows sampleRows_ne_nil - last_high sampleRows sampleRows_ne_nil) =
      4 * pivot_point sampleRows sampleRows_ne_nil -
        last_high sampleRows sampleRows_ne_nil - last_low sampleRows sampleRows_ne_nil := by
  have hmain := resistance_support_pivot_identity sampleRows sampleRows_ne_nil
  have hp : pivot_point sampleRows sampleRows_ne_nil = 10 := by
    show ((10 : ℚ) + 12 + 8) / 3 = 10
    norm_num
  have hlo : last_low sampleRows sampleRows_ne_nil = 8 := rfl
  have hhi : last_high sampleRows sampleRows_ne_nil = 12 := rfl
  refine ⟨hp, ?_, ?_, hmain.2.2⟩
  · rw [hmain.1, hp, hlo]
    norm_num
  · rw [hmain.2.1, hp, hhi]
    norm_num

/-- C10.  When the last row satisfies `lastLow ≤ lastClose ≤ lastHigh`,
the seven pivot levels are fully ordered:
S3 ≤ S2 ≤ S1 ≤ pivot ≤ R1 ≤ R2 ≤ R3. -/
theorem pivot_levels_ordered (rows : List StockRow) (h : rows ≠ [])
    (h1 : last_low rows h ≤ last_close rows h)
    (h2 : last_close rows h ≤ last_high rows h) :
    ∃ s1 s2 s3 r1 r2 r3,
      support rows h 1 = Except.ok s1 ∧ support rows h 2 = Except.ok s2 ∧
      support rows h 3 = Except.ok s3 ∧
      resistance rows h 1 = Except.ok r1 ∧
      resistance rows h 2 = Except.ok r2 ∧
      resistance rows h 3 = Except.ok r3 ∧
      s3 ≤ s2 ∧ s2 ≤ s1 ∧ s1 ≤ pivot_point rows h ∧
      pivot_point rows h ≤ r1 ∧ r1 ≤ r2 ∧ r2 ≤ r3 := by
  refine ⟨_, _, _, _, _, _, rfl, rfl, rfl, rfl, rfl, rfl, ?_, ?_, ?_, ?_, ?_, ?_⟩ <;>
    (unfold pivot_point at *; linarith)

/-- C10 witness: the ordering at the one-row table
(High = 12, Low = 8, Close = 10). -/
theorem pivot_levels_ordered_witness :
    last_low sampleRows sampleRows_ne_nil ≤ last_close sampleRows sampleRows_ne_nil ∧
    last_close sampleRows sampleRows_ne_nil ≤ last_high sampleRows sampleRows_ne_nil ∧
    ∃ s1 s2 s3 r1 r2 r3,
      support sampleRows sampleRows_ne_nil 1 = Except.ok s1 ∧
      support sampleRows sampleRows_ne_nil 2 = Except.ok s2 ∧
      support sampleRows sampleRows_ne_nil 3 = Except.ok s3 ∧
      resistance sampleRows sampleRows_ne_nil 1 = Except.ok r1 ∧
      resistance sampleRows sampleRows_ne_nil 2 = Except.ok r2 ∧
      resistance sampleRows sampleRows_ne_nil 3 = Except.ok r3 ∧
      s3 ≤ s2 ∧ s2 ≤ s1 ∧ s1 ≤ pivot_point sampleRows sampleRows_ne_nil ∧
      pivot_point sampleRows sampleRows_ne_nil ≤ r1 ∧ r1 ≤ r2 ∧ r2 ≤ r3 := by
  have hlc : (8 : ℚ) ≤ 10 := by norm_num
  have hch : (10 : ℚ) ≤ 12 := by norm_num
  exact ⟨hlc, hch, pivot_levels_ordered sampleRows sampleRows_ne_nil hlc hch⟩

/-- Length of `pct_change`'s tail. -/
theorem pctFrom_length (c : ℚ) (xs : List ℚ) :
    (close_pct_change.pctFrom c xs).length = xs.length := by
  induction xs generalizing c with
  | nil => rfl
  | cons x xs ih => simp [close_pct_change.pctFrom, ih]

/-- `pct_change` preserves the row count. -/
theorem close_pct_change_length (closes : List ℚ) :
    (close_pct_change closes).length = closes.length := by
  cases closes with
  | nil => rfl
  | cons c rest => simp [close_pct_change, pctFrom_length]

/-- C8 (amended).  For every period `p ≥ 1` and non-empty series,
`daily_std` hands `.std()` exactly the last `min(p, rowCount)` observations
of `close_pct_change` — the requested window is clamped to the available
rows rather than failing.  `std` is the (arbitrary) embedding of pandas'
`.std()`. -/
theorem daily_std_clamps (std : List (Option ℚ) → Option ℚ) (p : ℤ)
    (closes : List ℚ) (hp : 1 ≤ p) (hne : closes ≠ []) :
    daily_std std p closes =
      std (lastObservations (min p (closes.length : ℤ)).toNat
        (close_pct_change closes)) := by
  unfold daily_std pySliceFrom lastObservations
  have hn : 0 < closes.length := List.length_pos.mpr hne
  have hm : 1 ≤ min p (closes.length : ℤ) := by
    refine le_min hp ?_
    exact_mod_cast hn
  rw [if_pos (by linarith : min p (closes.length : ℤ) * (-1) < 0)]
  congr 2
  omega

/-- C8 witness: `p = 252` on a 3-row series clamps to all 3 rows, with
`.std()` instantiated by `sampleVarQ`. -/
theorem daily_std_clamps_witness :
    (1 : ℤ) ≤ 252 ∧ ([100, 110, 121] : List ℚ) ≠ [] ∧
    daily_std sampleVarQ 252 [100, 110, 121] =
      sampleVarQ (lastObservations
        (min (252 : ℤ) ((([100, 110, 121] : List ℚ).length : ℕ) : ℤ)).toNat
        (close_pct_change [100, 110, 121])) :=
  ⟨by decide, by simp,
   daily_std_clamps sampleVarQ 252 [100, 110, 121] (by decide) (by simp)⟩

/-- C8 (counterexample).  At `p = 0` (a degenerate but in-claim "requested
period") the code's slice `[-min(0, n):] = [0:]` keeps the *whole* series,
while the claim's "last `min(0, n) = 0` observations" is the empty list:
with `.std()` embodied by `sampleVarQ`, the code yields a defined value
(variance 0) and the claim's restriction yields NaN. -/
theorem daily_std_period_zero_counterexample :
    daily_std sampleVarQ 0 [100, 110, 121] = some 0 ∧
    sampleVarQ (lastObservations
        (min (0 : ℤ) ((([100, 110, 121] : List ℚ).length : ℕ) : ℤ)).toNat
        (close_pct_change [100, 110, 121])) = none ∧
    daily_std sampleVarQ 0 [100, 110, 121] ≠
      sampleVarQ (lastObservations
        (min (0 : ℤ) ((([100, 110, 121] : List ℚ).length : ℤ))).toNat
        (close_pct_change [100, 110, 121])) := by
  have hpct : close_pct_change [100, 110, 121] =
      [none, some (1 / 10 : ℚ), some (1 / 10 : ℚ)] := by
    norm_num [close_pct_change, close_pct_change.pctFrom]
  have h1 : daily_std sampleVarQ 0 [100, 110, 121] = some 0 := by
    rw [daily_std, hpct]
    norm_num [pySliceFrom, sampleVarQ, List.filterMap_cons]
  have h2 : sampleVarQ (lastObservations
      (min (0 : ℤ) ((([100, 110, 121] : List ℚ).length : ℕ) : ℤ)).toNat
      (close_pct_change [100, 110, 121])) = none := by
    rw [hpct]
    norm_num [lastObservations, sampleVarQ]
  refine ⟨h1, h2, ?_⟩
  rw [h1]
  have h2' : sampleVarQ (lastObservations
      (min (0 : ℤ) ((([100, 110, 121] : List ℚ).length : ℤ))).toNat
      (close_pct_change [100, 110, 121])) = none := by
    rw [hpct]
    norm_num [lastObservations, sampleVarQ]
  rw [h2']
  simp

/-! ## AssetGroupAnalyzer (stock_analyzer.py)

`analyze(func_name, **kwargs)` dispatches by
`getattr(StockAnalyzer, func_name)(analyzer, **kwargs)` after a
`hasattr(StockAnalyzer, func_name)` guard.  Looking `func_name` up *on the
class* yields a plain function for an ordinary method (so the call
`f(analyzer, **kwargs)` is the bound call), but for a `@property` it
yields the property descriptor object, and calling that object raises
`TypeError: 'property' object is not callable`. -/

/-- One row of a multi-symbol (group) price table. -/
structure NamedRow where
  name : String
  high : ℚ
  low : ℚ
  close : ℚ

/-- The Python kind of an attribute defined in the body of
`StockAnalyzer`. -/
inductive PyClassAttr where
  | pyMethod
  | pyProperty
  | pyStatic
  deriving DecidableEq

/-- The attributes defined in the class body of `StockAnalyzer`, with
their kinds, in source order.  (Attributes inherited from `object`, e.g.
dunder methods, are outside the analyzer's operation surface and are
omitted.) -/
def stockAnalyzerAttr (s : String) : Option PyClassAttr :=
  if s ∈ ["_max_periods", "close", "close_pct_change", "last_close",
          "last_high", "last_low", "pivot_point"] then
    some PyClassAttr.pyProperty
  else if s = "port_return" then
    some PyClassAttr.pyStatic
  else if s ∈ ["__init__", "cummulative_returns", "is_bear_market",
               "is_bull_market", "resistance", "support", "daily_std",
               "annualized_volatility", "volatility", "corr_with", "cv",
               "qcd", "beta", "alpha", "sharpe_ratio"] then
    some PyClassAttr.pyMethod
  else
    none

/-- Lexicographic order on character lists (by code point), the order
pandas sorts string group keys in. -/
def charListLt : List Char → List Char → Bool
  | [], [] => false
  | [], _ :: _ => true
  | _ :: _, [] => false
  | a :: as, b :: bs =>
    if a.toNat < b.toNat then true
    else if b.toNat < a.toNat then false
    else charListLt as bs

/-- Lexicographic order on strings. -/
def strLt (a b : String) : Bool := charListLt a.data b.data

/-- Insert a key into a sorted duplicate-free list of keys. -/
def insertKey (s : String) : List String → List String
  | [] => [s]
  | x :: xs =>
    if strLt s x then s :: x :: xs
    else if s = x then x :: xs
    else x :: insertKey s xs

/-- The distinct group keys, ascending — pandas `groupby` sorts group keys
by default. -/
def groupKeys : List NamedRow → List String
  | [] => []
  | r :: rs => insertKey r.name (groupKeys rs)

/-- `df.groupby(group_col)` with `group_col = "name"`: each distinct key
with its rows (in original order). -/
def groups (tbl : List NamedRow) : List (String × List NamedRow) :=
  (groupKeys tbl).map (fun k => (k, tbl.filter (fun r => r.name == k)))

/-- Embedding of `AssetGroupAnalyzer.analyze`.  `methodCall` gives the
semantics of invoking an ordinary method on a per-group analyzer (its
value never matters below: the claim's only successful-looking operation,
`last_close`, is a property).  An unknown name raises
`ValueError(f"StockAnalyzer has no {func_name} method.")`; a property
name passes the `hasattr` guard but the dict comprehension's first
iteration then calls the descriptor and raises `TypeError` (so an empty
table, having no groups, would return an empty mapping).  A staticmethod
(`port_return`) is looked up as a plain function and called like a
method. -/
def analyze {V : Type} (methodCall : String → List NamedRow → V)
    (tbl : List NamedRow) (func_name : String) :
    Except String (List (String × V)) :=
  match stockAnalyzerAttr func_name with
  | none => Except.error ("StockAnalyzer has no " ++ func_name ++ " method.")
  | some PyClassAttr.pyProperty =>
    match groups tbl with
    | [] => Except.ok []
    | _ :: _ => Except.error "TypeError: 'property' object is not callable"
  | some _ =>
    Except.ok ((groups tbl).map (fun g => (g.1, methodCall func_name g.2)))

/-- A concrete two-symbol table. -/
def sampleGroupTable : List NamedRow :=
  [⟨"AAA", 12, 8, 10⟩, ⟨"BBB", 22, 18, 20⟩, ⟨"AAA", 13, 9, 11⟩]

/-- C2 (code-bug evidence).  `analyze("nonexistentMethod")` does fail with
the unknown-operation `ValueError`, but `analyze("last_close")` does not
return the per-symbol mapping the spec promises: `last_close` is a
`@property`, `getattr(StockAnalyzer, "last_close")` is the property
descriptor, and calling it raises `TypeError` at the first group. -/
theorem analyze_last_close_raises :
    analyze (fun _ _ => (0 : ℚ)) sampleGroupTable "nonexistentMethod" =
      Except.error "StockAnalyzer has no nonexistentMethod method." ∧
    stockAnalyzerAttr "last_close" = some PyClassAttr.pyProperty ∧
    analyze (fun _ _ => (0 : ℚ)) sampleGroupTable "last_close" =
      Except.error "TypeError: 'property' object is not callable" := by
  refine ⟨rfl, by decide, ?_⟩
  rfl

/-! ## Technical indicators (technical_indicators.py)

Each indicator reads the Close column of a single-symbol table; its
`result` either raises `ValueError("Data too short")` when the series has
fewer than `2 × moving_days` rows or returns the derived series.  pandas
additionally rejects `window`/`span` values below 1; the theorems
therefore assume `1 ≤ m` and the models below are only used there. -/

/-- `Close.rolling(window=m).mean()`: position `i` is NaN while fewer than
`m` rows are available (`min_periods` defaults to the window), and the mean
of `closes[i+1-m .. i]` afterwards. -/
def rollingMean (m : ℕ) (closes : List ℚ) : List (Option ℚ) :=
  (List.range closes.length).map fun i =>
    if i + 1 < m then none
    else some (((closes.drop (i + 1 - m)).take m).sum / (m : ℚ))

/-- `MA.result` for `MA(moving_days = m)`. -/
def MA_result (m : ℕ) (closes : List ℚ) : Except String (List (Option ℚ)) :=
  if closes.length < 2 * m then Except.error "Data too short"
  else Except.ok (rollingMean m closes)

/-- Non-adjusted EWMA recurrence after the seed:
`y' = (1 - α)·y + α·x`. -/
def ewmaFrom (α : ℚ) : ℚ → List ℚ → List ℚ
  | _, [] => []
  | y, x :: xs => ((1 - α) * y + α * x) :: ewmaFrom α ((1 - α) * y + α * x) xs

/-- `Close.ewm(adjust=False).mean()` before `min_periods` masking: seeded
at the first value, then the recurrence. -/
def ewmaList (α : ℚ) : List ℚ → List ℚ
  | [] => []
  | x :: xs => x :: ewmaFrom α x xs

/-- `min_periods = m` masking over an all-valid input column: the first
`m - 1` outputs are NaN. -/
def maskMinPeriods (m : ℕ) (l : List ℚ) : List (Option ℚ) :=
  l.enum.map fun p => if p.1 + 1 < m then none else some p.2

/-- `EMA.result` for `EMA(moving_days = m)`:
`Close.ewm(span=m, min_periods=m, adjust=False).mean()` behind the same
length guard, with `α = 2 / (m + 1)`. -/
def EMA_result (m : ℕ) (closes : List ℚ) : Except String (List (Option ℚ)) :=
  if closes.length < 2 * m then Except.error "Data too short"
  else Except.ok (maskMinPeriods m (ewmaList (2 / ((m : ℚ) + 1)) closes))

/-- pandas Series subtraction over a shared index: NaN propagates. -/
def optSub : Option ℚ → Option ℚ → Option ℚ
  | some a, some b => some (a - b)
  | _, _ => none

/-- Non-adjusted EWMA over a series whose NaNs form a head block (the only
shape MACD produces): NaN outputs until the first valid value, which seeds
the recurrence. -/
def ewmaOptFrom (α : ℚ) : ℚ → List (Option ℚ) → List (Option ℚ)
  | _, [] => []
  | y, none :: xs => none :: ewmaOptFrom α y xs
  | y, some x :: xs =>
    some ((1 - α) * y + α * x) :: ewmaOptFrom α ((1 - α) * y + α * x) xs

/-- Entry point of the optional `macd.ewm(span=exp, adjust=False).mean()`
smoothing. -/
def ewmaOptList (α : ℚ) : List (Option ℚ) → List (Option ℚ)
  | [] => []
  | none :: xs => none :: ewmaOptList α xs
  | some x :: xs => some x :: ewmaOptFrom α x xs

/-- `MACD.result` for `MACD(low, high, exp)`: the difference of the two
EMAs (the left one evaluated first, so its guard raises first), returned
as-is when `exp == 0` and smoothed by an EWMA of span `exp` otherwise. -/
def MACD_result (low high exp : ℕ) (closes : List ℚ) :
    Except String (List (Option ℚ)) :=
  match EMA_result low closes with
  | Except.error e => Except.error e
  | Except.ok e₁ =>
    match EMA_result high closes with
    | Except.error e => Except.error e
    | Except.ok e₂ =>
      if exp = 0 then Except.ok (List.zipWith optSub e₁ e₂)
      else Except.ok (ewmaOptList (2 / ((exp : ℚ) + 1)) (List.zipWith optSub e₁ e₂))

/-- C3.  For every window `m ≥ 1`: `MA(moving_days=m).result` fails with
"Data too short" exactly when the series has fewer than `2·m` rows; on at
least `2·m` rows it succeeds, its first `m - 1` outputs are NaN, and the
`m`-th output (index `m - 1`) is the arithmetic mean of the first `m`
Close values. -/
theorem MA_result_spec (m : ℕ) (closes : List ℚ) (hm : 1 ≤ m) :
    (MA_result m closes = Except.error "Data too short" ↔
      closes.length < 2 * m) ∧
    (2 * m ≤ closes.length →
      ∃ l, MA_result m closes = Except.ok l ∧
        (∀ i, i < m - 1 → l.get? i = some none) ∧
        l.get? (m - 1) = some (some ((closes.take m).sum / (m : ℚ)))) := by
  constructor
  · constructor
    · intro h
      by_contra hlt
      unfold MA_result at h
      rw [if_neg hlt] at h
      exact Except.noConfusion h
    · intro h
      unfold MA_result
      rw [if_pos h]
  · intro h
    refine ⟨rollingMean m closes, ?_, ?_, ?_⟩
    · unfold MA_result
      rw [if_neg (by omega)]
    · intro i hi
      unfold rollingMean
      rw [List.get?_map, List.get?_range (by omega : i < closes.length)]
      simp only [Option.map_some']
      rw [if_pos (by omega)]
    · unfold rollingMean
      rw [List.get?_map, List.get?_range (by omega : m - 1 < closes.length)]
      simp only [Option.map_some']
      rw [if_neg (by omega)]
      have h0 : m - 1 + 1 - m = 0 := by omega
      rw [h0, List.drop_zero]

/-- C3 witness: `m = 5` on the 10-row series `[1, …, 10]`; the guard iff
is settled (10 < 10 is false), the first 4 outputs are NaN, and the 5th is
`(1+2+3+4+5)/5`. -/
theorem MA_result_spec_witness :
    1 ≤ 5 ∧
    ((MA_result 5 [1, 2, 3, 4, 5, 6, 7, 8, 9, 10] =
        Except.error "Data too short" ↔
      ([1, 2, 3, 4, 5, 6, 7, 8, 9, 10] : List ℚ).length < 2 * 5) ∧
    (2 * 5 ≤ ([1, 2, 3, 4, 5, 6, 7, 8, 9, 10] : List ℚ).length →
      ∃ l, MA_result 5 [1, 2, 3, 4, 5, 6, 7, 8, 9, 10] = Except.ok l ∧
        (∀ i, i < 5 - 1 → l.get? i = some none) ∧
        l.get? (5 - 1) = some (some
          ((([1, 2, 3, 4, 5, 6, 7, 8, 9, 10] : List ℚ).take 5).sum / (5 : ℚ))))) :=
  ⟨by decide, MA_result_spec 5 [1, 2, 3, 4, 5, 6, 7, 8, 9, 10] (by decide)⟩

/-- C4.  Whenever the series is long enough for both internal EMA guards
(and the spans are pandas-legal, `≥ 1`), `MACD(low, high, exp=0).result`
is exactly `EMA(low).result - EMA(high).result`, pointwise over the whole
index (`Option.map₂ optSub` at every position). -/
theorem MACD_result_identity (low high : ℕ) (closes : List ℚ)
    (hlo : 1 ≤ low) (hhi : 1 ≤ high)
    (h1 : 2 * low ≤ closes.length) (h2 : 2 * high ≤ closes.length) :
    ∃ e₁ e₂, EMA_result low closes = Except.ok e₁ ∧
      EMA_result high closes = Except.ok e₂ ∧
      MACD_result low high 0 closes = Except.ok (List.zipWith optSub e₁ e₂) ∧
      ∀ i, (List.zipWith optSub e₁ e₂).get? i =
        Option.map₂ optSub (e₁.get? i) (e₂.get? i) := by
  have he₁ : EMA_result low closes =
      Except.ok (maskMinPeriods low (ewmaList (2 / ((low : ℚ) + 1)) closes)) := by
    unfold EMA_result
    rw [if_neg (by omega)]
  have he₂ : EMA_result high closes =
      Except.ok (maskMinPeriods high (ewmaList (2 / ((high : ℚ) + 1)) closes)) := by
    unfold EMA_result
    rw [if_neg (by omega)]
  refine ⟨_, _, he₁, he₂, ?_, ?_⟩
  · unfold MACD_result
    rw [he₁, he₂]
    rfl
  · intro i
    rw [List.get?_zipWith']
    cases (maskMinPeriods low (ewmaList (2 / ((low : ℚ) + 1)) closes)).get? i <;>
      cases (maskMinPeriods high (ewmaList (2 / ((high : ℚ) + 1)) closes)).get? i <;>
        rfl

/-- C4 witness: `low = 2`, `high = 3`, `exp = 0` on a 6-row series. -/
theorem MACD_result_identity_witness :
    1 ≤ 2 ∧ 1 ≤ 3 ∧
    2 * 2 ≤ ([1, 2, 3, 4, 5, 6] : List ℚ).length ∧
    2 * 3 ≤ ([1, 2, 3, 4, 5, 6] : List ℚ).length ∧
    ∃ e₁ e₂, EMA_result 2 [1, 2, 3, 4, 5, 6] = Except.ok e₁ ∧
      EMA_result 3 [1, 2, 3, 4, 5, 6] = Except.ok e₂ ∧
      MACD_result 2 3 0 [1, 2, 3, 4, 5, 6] =
        Except.ok (List.zipWith optSub e₁ e₂) ∧
      ∀ i, (List.zipWith optSub e₁ e₂).get? i =
        Option.map₂ optSub (e₁.get? i) (e₂.get? i) :=
  ⟨by decide, by decide, by decide, by decide,
   MACD_result_identity 2 3 [1, 2, 3, 4, 5, 6] (by decide) (by decide)
     (by decide) (by decide)⟩

end VietnamStock
